import Mathlib

/-!
Shallow embedding of the OTP-gateway core: the Redis-backed store
(internal/store/redis/redis.go) and the verification/issuance handlers
(handleSetOTP, handleVerifyOTP, handleCheckOTPStatus, verifyOTP, isLocked).

Modelling conventions:
* A Redis hash is a record of optional fields (absent field = `none`); the
  database maps keys to entries (absent key = `none`).  An expired key is
  modelled as an absent key (expiry makes Redis delete it).
* Durations (Go `time.Duration`, Redis PTTL) are integers in milliseconds.
  The second-granularity rounding of the Redis `TTL` command is not modelled
  (the claims do not depend on it); `TTLSeconds`, a float mirror of `TTL`,
  is likewise derived and not carried separately.
* Go `(value, error)` returns are pairs `A × Option GoErr`; the sentinel
  `store.ErrNotExist` is the constructor `GoErr.notExist`, and values built
  by `errors.New` at the handler layer are the other constructors (Go
  compares errors by identity, so they are never equal to the sentinel).
* External effects are oracles passed in: `pub` is the success of a Redis
  PUBLISH round-trip, `Provider.pushOk` the success of a provider push,
  `App.jsonValid` the well-formedness test done by `encoding/json`, and
  `App.randID`/`App.randOTP` the outputs of `generateRandomString`.
  Store connectivity failures other than PUBLISH are not modelled.
-/

/-- Fields of the Redis hash that holds one OTP record, exactly the fields
written by `Redis.Set` / `HIncrBy` / `HSet` (redis.go).  `none` means the
field is absent from the hash. -/
structure RHash where
  otp : Option String
  toAddr : Option String
  channel_description : Option String
  address_description : Option String
  extra : Option String
  provider : Option String
  closed : Option Bool
  max_attempts : Option Int
  attempts : Option Int
  deriving Repr, DecidableEq

/-- A stored Redis key: its hash fields plus its remaining PTTL in
milliseconds (`none` = no expiry set, as for a key created by a bare
HSET/HINCRBY). -/
structure Entry where
  fields : RHash
  pttlMs : Option Int
  deriving Repr, DecidableEq

/-- The Redis database: a map from key strings to entries. -/
def DB : Type := String → Option Entry

/-- Write one key of the database. -/
def dbSet (db : DB) (k : String) (e : Entry) : DB :=
  fun k2 => if k2 = k then some e else db k2

/-- Redis DEL of one key. -/
def dbDel (db : DB) (k : String) : DB :=
  fun k2 => if k2 = k then none else db k2

/-- A hash with no fields (what HGETALL yields for an absent key). -/
def emptyHash : RHash :=
  ⟨none, none, none, none, none, none, none, none, none⟩

/-- HGETALL: all fields of a key, empty for an absent key. -/
def hgetall (db : DB) (k : String) : RHash :=
  match db k with
  | some e => e.fields
  | none => emptyHash

/-- Redis TTL of a key as seen by the client: `-2` for an absent key, `-1`
for a key without expiry, otherwise the remaining time (ms in this model). -/
def ttlCmd (db : DB) (k : String) : Int :=
  match db k with
  | none => -2
  | some e =>
    match e.pttlMs with
    | none => -1
    | some t => t

/-- HINCRBY on the `attempts` field: creates the key and/or the field when
absent (a key created this way has no expiry), returns the new value. -/
def hincrby (db : DB) (k : String) (n : Int) : Int × DB :=
  match db k with
  | none => (n, dbSet db k ⟨{ emptyHash with attempts := some n }, none⟩)
  | some e =>
    let v := e.fields.attempts.getD 0 + n
    (v, dbSet db k ⟨{ e.fields with attempts := some v }, e.pttlMs⟩)

/-- HSET of the `closed` field; creates the key (without expiry) if absent. -/
def hsetClosed (db : DB) (k : String) (b : Bool) : DB :=
  match db k with
  | none => dbSet db k ⟨{ emptyHash with closed := some b }, none⟩
  | some e => dbSet db k ⟨{ e.fields with closed := some b }, e.pttlMs⟩

/-- HSET of the `to` field; creates the key (without expiry) if absent. -/
def hsetTo (db : DB) (k : String) (v : String) : DB :=
  match db k with
  | none => dbSet db k ⟨{ emptyHash with toAddr := some v }, none⟩
  | some e => dbSet db k ⟨{ e.fields with toAddr := some v }, e.pttlMs⟩

/-- PEXPIRE: sets the expiry of an existing key, no-op on an absent key. -/
def pexpire (db : DB) (k : String) (ms : Int) : DB :=
  match db k with
  | none => db
  | some e => dbSet db k ⟨e.fields, some ms⟩

/-- HGET of the `attempts` field read back as an int (0 when absent; in the
code this read happens right after an HINCRBY, so the field exists). -/
def hgetAttempts (db : DB) (k : String) : Int :=
  match db k with
  | none => 0
  | some e => e.fields.attempts.getD 0

/-- Go `models.OTP` (pkg/models/models.go), field for field; `ttl` is the
`time.Duration` in milliseconds.  The Go field `Namespace` is `ns` here
(`namespace` is reserved in Lean). -/
structure OTP where
  ns : String
  id : String
  toAddr : String
  channelDesc : String
  addressDesc : String
  extra : String
  provider : String
  otp : String
  maxAttempts : Int
  attempts : Int
  closed : Bool
  ttl : Int
  deriving Repr, DecidableEq

/-- Go error values reaching the handlers.  `notExist` is the sentinel
`store.ErrNotExist`; the `..Msg` constructors are distinct values built by
`errors.New` in handlers.go (`tooManyMsg` carries the TTL that the code
formats into the message). -/
inductive GoErr where
  | notExist
  | publishFailed
  | checkFailedMsg
  | tooManyMsg (ttlMs : Int)
  | incorrectMsg
  deriving Repr, DecidableEq

/-- Error message text (`err.Error()`), mirroring the Go strings; the code
formats the TTL of `tooManyMsg` in whole seconds (`%0.f` of `Seconds()`). -/
def errMessage : GoErr → String
  | GoErr.notExist => "the OTP does not exist"
  | GoErr.publishFailed => "redis publish failed"
  | GoErr.checkFailedMsg => "error checking OTP."
  | GoErr.tooManyMsg ttlMs =>
    "Too many attempts. Please retry after " ++ toString (ttlMs / 1000) ++ " seconds."
  | GoErr.incorrectMsg => "Incorrect OTP"

/-- Store configuration (redis.go `Conf`): the key namespace (Go field
`KeyPrefix`) and the optional PubSub key (`PublishKey`, "" = disabled). -/
structure Conf where
  keyPref : String
  publishKey : String
  deriving Repr, DecidableEq

namespace Redis

/-- Key layout `prefix:namespace:id` (redis.go `makeKey`). -/
def makeKey (c : Conf) (ns id : String) : String :=
  c.keyPref ++ ":" ++ ns ++ ":" ++ id

/-- ScanStruct of an HGETALL result into `models.OTP`: absent fields scan to
Go zero values. -/
def scanOTP (ns id : String) (h : RHash) : OTP :=
  { ns := ns, id := id, toAddr := h.toAddr.getD "", channelDesc := h.channel_description.getD "",
    addressDesc := h.address_description.getD "", extra := h.extra.getD "",
    provider := h.provider.getD "", otp := h.otp.getD "",
    maxAttempts := h.max_attempts.getD 0, attempts := h.attempts.getD 0,
    closed := h.closed.getD false, ttl := 0 }

/-- Go `Redis.get`: HGETALL + scan, `ErrNotExist` when the `otp` field is
empty (the existence test), then TTL. -/
def get (c : Conf) (db : DB) (ns id : String) : OTP × Option GoErr :=
  let out := scanOTP ns id (hgetall db (makeKey c ns id))
  if out.otp = "" then (out, some GoErr.notExist)
  else ({ out with ttl := ttlCmd db (makeKey c ns id) }, none)

/-- Go `Redis.Check`: read the record; when `counter` is set, atomically
HINCRBY `attempts` and read TTL, then PUBLISH a "check" event if a publish
key is configured — a publish failure is returned as the call's error. -/
def Check (c : Conf) (pub : Bool) (db : DB) (ns id : String) (counter : Bool) :
    (OTP × Option GoErr) × DB :=
  let r := get c db ns id
  match r.2 with
  | some e => ((r.1, some e), db)
  | none =>
    if counter = false then ((r.1, none), db)
    else
      let key := makeKey c ns id
      let p := hincrby db key 1
      let out1 := { r.1 with attempts := p.1, ttl := ttlCmd p.2 key }
      if c.publishKey ≠ "" ∧ pub = false then ((out1, some GoErr.publishFailed), p.2)
      else ((out1, none), p.2)

/-- Go `Redis.Set`: HMSET of the listed fields (note: `closed` is written
`false` and `attempts` is not among them), then HINCRBY `attempts` 1 and
PEXPIRE, then the resulting `attempts` is read back into the returned
record. -/
def Set (c : Conf) (db : DB) (ns id : String) (otp : OTP) : (OTP × Option GoErr) × DB :=
  let key := makeKey c ns id
  let db1 := dbSet db key
    ⟨{ otp := some otp.otp, toAddr := some otp.toAddr,
       channel_description := some otp.channelDesc,
       address_description := some otp.addressDesc,
       extra := some otp.extra, provider := some otp.provider,
       closed := some false, max_attempts := some otp.maxAttempts,
       attempts := (db key).bind (fun e => e.fields.attempts) },
     (db key).bind (fun e => e.pttlMs)⟩
  let p := hincrby db1 key 1
  let db3 := pexpire p.2 key otp.ttl
  (({ otp with attempts := hgetAttempts db3 key, ns := ns, id := id }, none), db3)

/-- Go `Redis.SetAddress`: HSET of the `to` field only. -/
def SetAddress (c : Conf) (db : DB) (ns id address : String) : Option GoErr × DB :=
  (none, hsetTo db (makeKey c ns id) address)

/-- Go `Redis.Close`: HSET `closed=true`, then PUBLISH a "close" event if a
publish key is configured — a publish failure is returned as the call's
error (after the mutation has been applied). -/
def Close (c : Conf) (pub : Bool) (db : DB) (ns id : String) : Option GoErr × DB :=
  let db1 := hsetClosed db (makeKey c ns id) true
  if c.publishKey ≠ "" ∧ pub = false then (some GoErr.publishFailed, db1)
  else (none, db1)

/-- Go `Redis.Delete`: DEL of the key. -/
def Delete (c : Conf) (db : DB) (ns id : String) : Option GoErr × DB :=
  (none, dbDel db (makeKey c ns id))

end Redis


/-- A message provider as seen by the handlers: its generated-OTP length,
the outcome of `ValidateAddress` (syntactic check) and of a `Push` during
the current request (delivery oracle). -/
structure Provider where
  maxOTPLen : Nat
  validAddress : String → Bool
  pushOk : Bool

/-- Handler environment (the `App` struct of the gateway): store conf, the
PUBLISH outcome oracle, the registered providers, process-wide default TTL
(ms) and max attempts, the root URL, the `encoding/json` validity oracle and
the outputs of `generateRandomString` for this request. -/
structure App where
  conf : Conf
  publishOk : Bool
  providers : List (String × Provider)
  otpTTLms : Int
  otpMaxAttempts : Int
  rootURL : String
  jsonValid : String → Bool
  randID : String
  randOTP : String

/-- Lookup of `app.providers[provider]`. -/
def lookupProvider (ps : List (String × Provider)) (k : String) : Option Provider :=
  (ps.find? (fun q => q.1 == k)).map (fun q => q.2)

/-- Payload of a JSON response envelope: nil, an OTP record, a record with
its status URL (`otpResp`), or the lock data `otpErrResp`
(`ttl_seconds`, `attempts`, `max_attempts`). -/
inductive RespData where
  | null
  | otpData (o : OTP)
  | otpURLData (o : OTP) (url : String)
  | errData (ttlMs : Int) (attempts maxAttempts : Int)
  deriving Repr, DecidableEq

/-- An HTTP response: status code plus the `httpResp` JSON envelope. -/
structure Resp where
  code : Int
  status : String
  message : Option String
  data : RespData
  deriving Repr, DecidableEq

/-- Go `sendResponse`: HTTP 200 with a success envelope. -/
def sendResponse (data : RespData) : Resp :=
  { code := 200, status := "success", message := none, data := data }

/-- Go `sendErrorResponse`. -/
def sendErrorResponse (message : String) (code : Int) (data : RespData) : Resp :=
  { code := code, status := "error", message := some message, data := data }

/-- Decimal digit value of a character. -/
def digitVal (ch : Char) : Option Int :=
  if ch.isDigit then some (Int.ofNat (ch.toNat - 48)) else none

/-- Accumulate decimal digits left to right. -/
def digitsVal (l : List Char) : Option Int :=
  l.foldl
    (fun acc ch =>
      match acc, digitVal ch with
      | some a, some d => some (a * 10 + d)
      | _, _ => none)
    (some 0)

/-- Go `strconv.Atoi`: optional sign then at least one digit, nothing else
(overflow is not modelled). -/
def goAtoi (s : String) : Option Int :=
  let p : Bool × List Char :=
    match s.toList with
    | '-' :: rest => (true, rest)
    | '+' :: rest => (false, rest)
    | rest => (false, rest)
  if p.2 = [] then none
  else (digitsVal p.2).map (fun v => if p.1 then -v else v)

/-- TTL form field of `handleSetOTP`: default when empty, otherwise Atoi,
rejected when the parse fails or the value is below 1; seconds become a
duration (ms here). -/
def parseTTLArg (app : App) (raw : String) : Option Int :=
  if raw = "" then some app.otpTTLms
  else
    match goAtoi raw with
    | none => none
    | some v => if v < 1 then none else some (v * 1000)

/-- Form field `max_attempts` of `handleSetOTP`: default when empty,
otherwise Atoi, rejected when the parse fails or the value is below 1. -/
def parseMaxAttemptsArg (app : App) (raw : String) : Option Int :=
  if raw = "" then some app.otpMaxAttempts
  else
    match goAtoi raw with
    | none => none
    | some v => if v < 1 then none else some v

/-- Go `isLocked` (handlers.go): `attempts >= max_attempts`. -/
def isLocked (otp : OTP) : Bool :=
  decide (otp.attempts ≥ otp.maxAttempts)

/-- Go `getURL` (handlers.go): status-check URL of a record. -/
def getURL (rootURL : String) (otp : OTP) (check : Bool) : String :=
  if check then
    rootURL ++ "/otp/" ++ otp.ns ++ "/" ++ otp.id ++ "?otp=" ++ otp.otp ++ "&action=check"
  else rootURL ++ "/otp/" ++ otp.ns ++ "/" ++ otp.id

/-- Go `verifyOTP` (handlers.go): `Check(increment=true)`; `ErrNotExist` is
replaced by a fresh generic error; then the lock test, then the literal
string comparison; on a match, optionally Delete, then Close (both error
returns ignored) and the record is returned with `closed=true`. -/
def verifyOTP (c : Conf) (pub : Bool) (db : DB) (ns id otpVal : String)
    (deleteOnVerify : Bool) : (OTP × Option GoErr) × DB :=
  let r := Redis.Check c pub db ns id true
  match r.1.2 with
  | some e =>
    if e ≠ GoErr.notExist then ((r.1.1, some e), r.2)
    else ((r.1.1, some GoErr.checkFailedMsg), r.2)
  | none =>
    let out := r.1.1
    if isLocked out then ((out, some (GoErr.tooManyMsg out.ttl)), r.2)
    else if out.otp ≠ otpVal then ((out, some GoErr.incorrectMsg), r.2)
    else
      let db2 := if deleteOnVerify then (Redis.Delete c r.2 ns id).2 else r.2
      let db3 := (Redis.Close c pub db2 ns id).2
      (({ out with closed := true }, none), db3)

/-- Go `handleVerifyOTP` (POST /api/otp/\x7bid\x7d): id length and otp
presence checks, then `verifyOTP` with `deleteOnVerify = !skip_delete`; on
error, 400 — except that the sentinel-equality branch keeps 400 with no
payload, and otherwise the code is 429 exactly when the returned record has
`closed=true`. -/
def handleVerifyOTP (c : Conf) (pub : Bool) (db : DB) (ns id otpVal : String)
    (skipDelete : Bool) : Resp × DB :=
  if id.length < 6 then
    (sendErrorResponse "ID should be min 6 chars" 400 RespData.null, db)
  else if otpVal = "" then
    (sendErrorResponse "`otp` is empty." 400 RespData.null, db)
  else
    let r := verifyOTP c pub db ns id otpVal (!skipDelete)
    match r.1.2 with
    | some e =>
      if e = GoErr.notExist then
        (sendErrorResponse (errMessage e) 400 RespData.null, r.2)
      else
        let code : Int := if r.1.1.closed then 429 else 400
        (sendErrorResponse (errMessage e) code (RespData.otpData r.1.1), r.2)
    | none => (sendResponse (RespData.otpData r.1.1), r.2)

/-- Go `handleCheckOTPStatus` (POST|DELETE /api/otp/\x7bid\x7d/status): id
length check, read-only Check, success only when `closed=true` (the DELETE
method then removes the record). -/
def handleCheckOTPStatus (c : Conf) (pub : Bool) (db : DB) (ns id : String)
    (isMethodDelete : Bool) : Resp × DB :=
  if id.length < 6 then
    (sendErrorResponse "ID should be min 6 chars." 400 RespData.null, db)
  else
    let r := Redis.Check c pub db ns id false
    match r.1.2 with
    | some e => (sendErrorResponse (errMessage e) 400 RespData.null, r.2)
    | none =>
      if r.1.1.closed then
        let db2 := if isMethodDelete then (Redis.Delete c r.2 ns id).2 else r.2
        (sendResponse (RespData.otpData r.1.1), db2)
      else (sendErrorResponse "OTP not verified." 400 RespData.null, r.2)

/-- Form fields of an issuance request (PUT /api/otp/\x7bid\x7d). -/
structure SetReq where
  id : String
  provider : String
  channelDesc : String
  addressDesc : String
  rawTTL : String
  rawMaxAttempts : String
  extra : String
  toAddr : String
  otpVal : String

/-- Message of the 429 issuance rejection (the code formats the TTL in whole
seconds). -/
def tooManyIssueMsg (ttlMs : Int) : String :=
  "OTP attempts exceeded. Retry after " ++ toString (ttlMs / 1000) ++ " seconds."

/-- Go `handleSetOTP` (PUT /api/otp/\x7bid\x7d): provider lookup, optional
address validation, TTL / max_attempts / extra validation, generation of
missing id and otp, then `Check(increment=false)` — an existing locked
record is rejected with 429 and its attempts / max_attempts / TTL, without
calling `Store.Set`; otherwise `Store.Set` (re)creates the record and, when
an address is present, the message is pushed (failure → 500 after the record
exists). -/
def handleSetOTP (app : App) (db : DB) (ns : String) (q : SetReq) : Resp × DB :=
  match lookupProvider app.providers q.provider with
  | none => (sendErrorResponse "Unknown provider." 400 RespData.null, db)
  | some p =>
    if q.toAddr ≠ "" ∧ p.validAddress q.toAddr = false then
      (sendErrorResponse "Invalid `to` address." 400 RespData.null, db)
    else
      match parseTTLArg app q.rawTTL with
      | none => (sendErrorResponse "Invalid `ttl` value." 400 RespData.null, db)
      | some ttl =>
        match parseMaxAttemptsArg app q.rawMaxAttempts with
        | none => (sendErrorResponse "Invalid `max_attempts` value." 400 RespData.null, db)
        | some maxAtt =>
          if q.extra.length > 0 ∧ app.jsonValid q.extra = false then
            (sendErrorResponse "Invalid JSON in `extra`." 400 RespData.null, db)
          else
            let extra := if q.extra.length > 0 then q.extra else "\x7b\x7d"
            let id := if q.id = "" then app.randID else q.id
            let otpVal := if q.otpVal = "" then app.randOTP else q.otpVal
            let r := Redis.Check app.conf app.publishOk db ns id false
            let otp0 := r.1.1
            let err := r.1.2
            if err.isSome ∧ err ≠ some GoErr.notExist then
              (sendErrorResponse "Error checking OTP status." 400 RespData.null, db)
            else if err ≠ some GoErr.notExist ∧ isLocked otp0 then
              (sendErrorResponse (tooManyIssueMsg otp0.ttl) 429
                (RespData.errData otp0.ttl otp0.attempts otp0.maxAttempts), db)
            else
              let s := Redis.Set app.conf db ns id
                { ns := "", id := "", toAddr := q.toAddr, channelDesc := q.channelDesc,
                  addressDesc := q.addressDesc, extra := extra, provider := q.provider,
                  otp := otpVal, maxAttempts := maxAtt, attempts := 0, closed := false,
                  ttl := ttl }
              let newOTP := s.1.1
              if q.toAddr ≠ "" ∧ p.pushOk = false then
                (sendErrorResponse "Error sending OTP." 500 RespData.null, s.2)
              else
                (sendResponse (RespData.otpURLData newOTP (getURL app.rootURL newOTP false)), s.2)

/-- An entry holding a fully populated OTP record, the shape every record
written by `Redis.Set` has (all hash fields present, an expiry set). -/
def mkEntry (s to2 ch ad ex pr : String) (cl : Bool) (ma a0 pt : Int) : Entry :=
  ⟨{ otp := some s, toAddr := some to2, channel_description := some ch,
     address_description := some ad, extra := some ex, provider := some pr,
     closed := some cl, max_attempts := some ma, attempts := some a0 }, some pt⟩

/-- The `models.OTP` value that scanning `mkEntry` produces. -/
def mkOTP (ns id s to2 ch ad ex pr : String) (cl : Bool) (ma a0 t : Int) : OTP :=
  { ns := ns, id := id, toAddr := to2, channelDesc := ch, addressDesc := ad,
    extra := ex, provider := pr, otp := s, maxAttempts := ma, attempts := a0,
    closed := cl, ttl := t }

theorem dbSet_self (db : DB) (k : String) (e : Entry) : dbSet db k e k = some e := by
  simp [dbSet]

/-- Reading a populated record: HGETALL finds the secret, so `get` returns
the scanned record with its TTL. -/
theorem get_of_rec (c : Conf) (db : DB) (ns id : String)
    (s to2 ch ad ex pr : String) (cl : Bool) (ma a0 pt : Int)
    (hrec : db (Redis.makeKey c ns id) = some (mkEntry s to2 ch ad ex pr cl ma a0 pt))
    (hs : s ≠ "") :
    Redis.get c db ns id = (mkOTP ns id s to2 ch ad ex pr cl ma a0 pt, none) := by
  simp [Redis.get, Redis.scanOTP, hgetall, ttlCmd, hrec, mkEntry, mkOTP, hs]

/-- Read-only Check on a populated record: no mutation, attempts as stored. -/
theorem check_noincr_of_rec (c : Conf) (pub : Bool) (db : DB) (ns id : String)
    (s to2 ch ad ex pr : String) (cl : Bool) (ma a0 pt : Int)
    (hrec : db (Redis.makeKey c ns id) = some (mkEntry s to2 ch ad ex pr cl ma a0 pt))
    (hs : s ≠ "") :
    Redis.Check c pub db ns id false =
      ((mkOTP ns id s to2 ch ad ex pr cl ma a0 pt, none), db) := by
  simp [Redis.Check, get_of_rec c db ns id s to2 ch ad ex pr cl ma a0 pt hrec hs]

/-- Incrementing Check on a populated record when the publish step cannot
fail: attempts goes up by exactly one, atomically with the TTL read. -/
theorem check_incr_of_rec (c : Conf) (pub : Bool) (db : DB) (ns id : String)
    (s to2 ch ad ex pr : String) (cl : Bool) (ma a0 pt : Int)
    (hrec : db (Redis.makeKey c ns id) = some (mkEntry s to2 ch ad ex pr cl ma a0 pt))
    (hs : s ≠ "")
    (hpub : c.publishKey = "" ∨ pub = true) :
    Redis.Check c pub db ns id true =
      ((mkOTP ns id s to2 ch ad ex pr cl ma (a0 + 1) pt, none),
       dbSet db (Redis.makeKey c ns id) (mkEntry s to2 ch ad ex pr cl ma (a0 + 1) pt)) := by
  rcases hpub with h | h <;>
    simp [Redis.Check, get_of_rec c db ns id s to2 ch ad ex pr cl ma a0 pt hrec hs,
      hincrby, hrec, mkEntry, mkOTP, ttlCmd, dbSet_self, h]

/-- Verify when the post-increment count reaches the limit: the lock test
comes before the string comparison, so every guess — the correct one
included — gets `TooManyAttempts` with the remaining TTL. -/
theorem verify_locked_of_rec (c : Conf) (pub : Bool) (db : DB) (ns id : String)
    (s to2 ch ad ex pr : String) (cl : Bool) (ma a0 pt : Int)
    (hrec : db (Redis.makeKey c ns id) = some (mkEntry s to2 ch ad ex pr cl ma a0 pt))
    (hs : s ≠ "")
    (hpub : c.publishKey = "" ∨ pub = true)
    (hlock : a0 + 1 ≥ ma) (guess : String) (del : Bool) :
    verifyOTP c pub db ns id guess del =
      ((mkOTP ns id s to2 ch ad ex pr cl ma (a0 + 1) pt, some (GoErr.tooManyMsg pt)),
       dbSet db (Redis.makeKey c ns id) (mkEntry s to2 ch ad ex pr cl ma (a0 + 1) pt)) := by
  simp [verifyOTP,
    check_incr_of_rec c pub db ns id s to2 ch ad ex pr cl ma a0 pt hrec hs hpub,
    isLocked, mkOTP, hlock]

/-- Verify with a wrong guess below the limit: `IncorrectOTP`, the increment
already persisted. -/
theorem verify_wrong_of_rec (c : Conf) (pub : Bool) (db : DB) (ns id : String)
    (s to2 ch ad ex pr : String) (cl : Bool) (ma a0 pt : Int)
    (hrec : db (Redis.makeKey c ns id) = some (mkEntry s to2 ch ad ex pr cl ma a0 pt))
    (hs : s ≠ "")
    (hpub : c.publishKey = "" ∨ pub = true)
    (hfree : a0 + 1 < ma) (guess : String) (hg : s ≠ guess) (del : Bool) :
    verifyOTP c pub db ns id guess del =
      ((mkOTP ns id s to2 ch ad ex pr cl ma (a0 + 1) pt, some GoErr.incorrectMsg),
       dbSet db (Redis.makeKey c ns id) (mkEntry s to2 ch ad ex pr cl ma (a0 + 1) pt)) := by
  simp [verifyOTP,
    check_incr_of_rec c pub db ns id s to2 ch ad ex pr cl ma a0 pt hrec hs hpub,
    isLocked, mkOTP, Int.not_le.mpr hfree, hg]

/-- Database effect of `Redis.Close`, independent of the publish outcome. -/
theorem close_db_eq (c : Conf) (pub : Bool) (db : DB) (ns id : String) :
    (Redis.Close c pub db ns id).2 = hsetClosed db (Redis.makeKey c ns id) true := by
  simp only [Redis.Close]
  split <;> rfl

/-- Verify with the correct guess below the limit and delete-on-verify: the
key is deleted, then Close re-adds a bare hash holding only `closed=true`
(without expiry); the returned record is the read one with `closed=true`. -/
theorem verify_right_delete_of_rec (c : Conf) (pub : Bool) (db : DB) (ns id : String)
    (s to2 ch ad ex pr : String) (cl : Bool) (ma a0 pt : Int)
    (hrec : db (Redis.makeKey c ns id) = some (mkEntry s to2 ch ad ex pr cl ma a0 pt))
    (hs : s ≠ "")
    (hpub : c.publishKey = "" ∨ pub = true)
    (hfree : a0 + 1 < ma) :
    verifyOTP c pub db ns id s true =
      ((mkOTP ns id s to2 ch ad ex pr true ma (a0 + 1) pt, none),
       dbSet (dbDel (dbSet db (Redis.makeKey c ns id)
           (mkEntry s to2 ch ad ex pr cl ma (a0 + 1) pt)) (Redis.makeKey c ns id))
         (Redis.makeKey c ns id) ⟨{ emptyHash with closed := some true }, none⟩) := by
  have hc := check_incr_of_rec c pub db ns id s to2 ch ad ex pr cl ma a0 pt hrec hs hpub
  simp [verifyOTP, hc, isLocked, mkOTP, Int.not_le.mpr hfree, Redis.Delete, close_db_eq,
    hsetClosed, dbDel]

/-- Concrete store configurations for witnesses: without and with a
configured publish key. -/
def confNoPub : Conf := ⟨"OTP", ""⟩

def confPub : Conf := ⟨"OTP", "events"⟩

/-- The empty database. -/
def dbEmpty : DB := fun _ => none

/-- A database holding exactly one key. -/
def oneKeyDB (k : String) (e : Entry) : DB :=
  fun k2 => if k2 = k then some e else none

/-- C1: every Verify on an existing record consumes exactly one attempt via
`Check(increment=true)` — the counter goes from `a0` to `a0+1` in the store
and in the returned record, whatever the guess — and whenever the
post-increment count reaches `max_attempts`, the call fails with
TooManyAttempts carrying the remaining TTL without comparing the guess
against the stored secret: the result is the same for every guess, the
correct one included, and the stored secret is untouched. -/
theorem C1_verify_consumes_attempt_and_locks
    (c : Conf) (pub : Bool) (db : DB) (ns id : String)
    (s to2 ch ad ex pr : String) (cl : Bool) (ma a0 pt : Int)
    (hrec : db (Redis.makeKey c ns id) = some (mkEntry s to2 ch ad ex pr cl ma a0 pt))
    (hs : s ≠ "")
    (hpub : c.publishKey = "" ∨ pub = true) :
    ((Redis.Check c pub db ns id true).1.1.attempts = a0 + 1 ∧
      (Redis.Check c pub db ns id true).1.2 = none ∧
      (Redis.Check c pub db ns id true).2 (Redis.makeKey c ns id) =
        some (mkEntry s to2 ch ad ex pr cl ma (a0 + 1) pt)) ∧
    (a0 + 1 ≥ ma →
      ∀ guess del,
        verifyOTP c pub db ns id guess del =
          ((mkOTP ns id s to2 ch ad ex pr cl ma (a0 + 1) pt, some (GoErr.tooManyMsg pt)),
           dbSet db (Redis.makeKey c ns id) (mkEntry s to2 ch ad ex pr cl ma (a0 + 1) pt))) := by
  have hc := check_incr_of_rec c pub db ns id s to2 ch ad ex pr cl ma a0 pt hrec hs hpub
  refine ⟨⟨?_, ?_, ?_⟩, ?_⟩
  · rw [hc]; rfl
  · rw [hc]
  · rw [hc]; exact dbSet_self db (Redis.makeKey c ns id) _
  · intro hlock guess del
    exact verify_locked_of_rec c pub db ns id s to2 ch ad ex pr cl ma a0 pt hrec hs hpub
      hlock guess del

def c1db : DB :=
  oneKeyDB "OTP:myapp:uid123" (mkEntry "123456" "a@b" "" "" "\x7b\x7d" "smtp" false 3 2 30000)

/-- Witness for C1 at a record with `attempts=2`, `max_attempts=3`: the
incrementing check makes 3 and the verify call with the correct OTP
"123456" is refused with TooManyAttempts. -/
theorem C1_verify_consumes_attempt_and_locks_witness :
    (c1db (Redis.makeKey confNoPub "myapp" "uid123") =
        some (mkEntry "123456" "a@b" "" "" "\x7b\x7d" "smtp" false 3 2 30000) ∧
      "123456" ≠ "" ∧ (confNoPub.publishKey = "" ∨ (true = true)) ∧ (2 : Int) + 1 ≥ 3) ∧
    verifyOTP confNoPub true c1db "myapp" "uid123" "123456" true =
      ((mkOTP "myapp" "uid123" "123456" "a@b" "" "" "\x7b\x7d" "smtp" false 3 3 30000,
        some (GoErr.tooManyMsg 30000)),
       dbSet c1db (Redis.makeKey confNoPub "myapp" "uid123")
         (mkEntry "123456" "a@b" "" "" "\x7b\x7d" "smtp" false 3 3 30000)) := by
  refine ⟨⟨by decide, by decide, Or.inl rfl, by decide⟩, ?_⟩
  exact (C1_verify_consumes_attempt_and_locks confNoPub true c1db "myapp" "uid123"
    "123456" "a@b" "" "" "\x7b\x7d" "smtp" false 3 2 30000 (by decide) (by decide)
    (Or.inl rfl)).2 (by decide) "123456" true

/-- C2: an issuance request (`handleSetOTP`) on a key whose existing record
is locked (`attempts >= max_attempts`) is rejected with HTTP 429 reporting
the record's current attempts, max_attempts and remaining TTL, and the
database is returned untouched — `Store.Set` is never called, so neither the
attempts counter nor the stored secret changes. -/
theorem C2_issue_locked_rejected
    (app : App) (db : DB) (ns : String) (q : SetReq) (p : Provider)
    (s to2 ch ad ex pr : String) (cl : Bool) (ma a0 pt : Int)
    (hp : lookupProvider app.providers q.provider = some p)
    (hto : q.toAddr = "" ∨ p.validAddress q.toAddr = true)
    (httl : parseTTLArg app q.rawTTL ≠ none)
    (hmax : parseMaxAttemptsArg app q.rawMaxAttempts ≠ none)
    (hext : q.extra.length = 0 ∨ app.jsonValid q.extra = true)
    (hid : q.id ≠ "")
    (hrec : db (Redis.makeKey app.conf ns q.id) = some (mkEntry s to2 ch ad ex pr cl ma a0 pt))
    (hs : s ≠ "")
    (hlock : a0 ≥ ma) :
    handleSetOTP app db ns q =
      (sendErrorResponse (tooManyIssueMsg pt) 429 (RespData.errData pt a0 ma), db) := by
  obtain ⟨ttl, httl2⟩ := Option.ne_none_iff_exists'.mp httl
  obtain ⟨mx, hmax2⟩ := Option.ne_none_iff_exists'.mp hmax
  have hc := check_noincr_of_rec app.conf app.publishOk db ns q.id s to2 ch ad ex pr cl ma
    a0 pt hrec hs
  rcases hto with hto | hto <;> rcases hext with hext | hext <;>
    simp [handleSetOTP, hp, httl2, hmax2, hid, hc, isLocked, mkOTP, hlock, hto, hext]

def c2db : DB :=
  oneKeyDB "OTP:myapp:uid123" (mkEntry "123456" "a@b" "" "" "\x7b\x7d" "smtp" false 3 5 30000)

def wProv : Provider := ⟨6, fun _ => true, true⟩

def wApp : App :=
  { conf := confNoPub, publishOk := true, providers := [("smtp", wProv)],
    otpTTLms := 60000, otpMaxAttempts := 5, rootURL := "http://localhost",
    jsonValid := fun _ => true, randID := "RANDOMIDRANDOMIDRANDOMIDRANDOMID",
    randOTP := "424242" }

def c2req : SetReq :=
  { id := "uid123", provider := "smtp", channelDesc := "", addressDesc := "",
    rawTTL := "", rawMaxAttempts := "", extra := "", toAddr := "", otpVal := "654321" }

/-- Witness for C2 at a record with `attempts=5 >= max_attempts=3`: the
issuance is answered with 429 carrying (ttl=30000ms, attempts=5, max=3) and
the database is unchanged. -/
theorem C2_issue_locked_rejected_witness :
    (lookupProvider wApp.providers c2req.provider = some wProv ∧
      c2req.toAddr = "" ∧ parseTTLArg wApp c2req.rawTTL ≠ none ∧
      parseMaxAttemptsArg wApp c2req.rawMaxAttempts ≠ none ∧
      c2req.extra.length = 0 ∧ c2req.id ≠ "" ∧
      c2db (Redis.makeKey wApp.conf "myapp" c2req.id) =
        some (mkEntry "123456" "a@b" "" "" "\x7b\x7d" "smtp" false 3 5 30000) ∧
      "123456" ≠ "" ∧ (5 : Int) ≥ 3) ∧
    handleSetOTP wApp c2db "myapp" c2req =
      (sendErrorResponse (tooManyIssueMsg 30000) 429 (RespData.errData 30000 5 3), c2db) := by
  refine ⟨⟨rfl, rfl, by decide, by decide, rfl, by decide, by decide, by decide, by decide⟩, ?_⟩
  exact C2_issue_locked_rejected wApp c2db "myapp" c2req wProv "123456" "a@b" "" "" "\x7b\x7d"
    "smtp" false 3 5 30000 rfl (Or.inl rfl) (by decide) (by decide) (Or.inl rfl) (by decide)
    (by decide) (by decide) (by decide)

def c3req : SetReq :=
  { id := "uid123", provider := "smtp", channelDesc := "", addressDesc := "",
    rawTTL := "", rawMaxAttempts := "", extra := "", toAddr := "", otpVal := "654321" }

def c3db : DB :=
  oneKeyDB "OTP:myapp:uid123" (mkEntry "123456" "a@b" "" "" "\x7b\x7d" "smtp" true 3 1 30000)

/-- C3 counterexample: a record closed by a successful verification
(`closed=true`, `attempts=1 < max_attempts=3`, neither deleted nor expired)
is reopened by a later issuance on the same key: `handleSetOTP` succeeds
(HTTP 200) and the stored record afterwards has `closed=false`. -/
theorem C3_counterexample :
    ((c3db "OTP:myapp:uid123").map fun e => e.fields.closed) = some (some true) ∧
    (handleSetOTP wApp c3db "myapp" c3req).1.code = 200 ∧
    (((handleSetOTP wApp c3db "myapp" c3req).2 "OTP:myapp:uid123").map
      fun e => e.fields.closed) = some (some false) := by
  exact ⟨by decide, by decide, by decide⟩

/-- Database effect of a non-incrementing Check: none, whatever the record. -/
theorem check_noincr_db (c : Conf) (pub : Bool) (db : DB) (ns id : String) :
    (Redis.Check c pub db ns id false).2 = db := by
  simp only [Redis.Check]
  split
  · rfl
  · simp

/-- Database effect of an incrementing Check on a populated record, whatever
the publish outcome: only `attempts` changes, by one. -/
theorem check_incr_db_eq (c : Conf) (pub : Bool) (db : DB) (ns id : String)
    (s to2 ch ad ex pr : String) (cl : Bool) (ma a0 pt : Int)
    (hrec : db (Redis.makeKey c ns id) = some (mkEntry s to2 ch ad ex pr cl ma a0 pt))
    (hs : s ≠ "") :
    (Redis.Check c pub db ns id true).2 =
      dbSet db (Redis.makeKey c ns id) (mkEntry s to2 ch ad ex pr cl ma (a0 + 1) pt) := by
  have hg := get_of_rec c db ns id s to2 ch ad ex pr cl ma a0 pt hrec hs
  simp only [Redis.Check, hg]
  simp [hincrby, hrec, mkEntry]
  split <;> rfl

/-- After an HSET of `closed=true`, the key holds `closed=true`. -/
theorem hsetClosed_closed_at (db : DB) (k : String) :
    ((hsetClosed db k true) k).map (fun e2 => e2.fields.closed) = some (some true) := by
  cases h : db k <;> simp [hsetClosed, h, dbSet]

/-- The database `verifyOTP` leaves behind is either the one its Check left
behind (all failure paths) or that database with the optional Delete and the
final Close applied (the success path). -/
theorem verify_db_cases (c : Conf) (pub : Bool) (db : DB) (ns id guess : String) (del : Bool) :
    (verifyOTP c pub db ns id guess del).2 = (Redis.Check c pub db ns id true).2 ∨
    (verifyOTP c pub db ns id guess del).2 =
      hsetClosed (if del then
          (Redis.Delete c (Redis.Check c pub db ns id true).2 ns id).2
        else (Redis.Check c pub db ns id true).2) (Redis.makeKey c ns id) true := by
  simp only [verifyOTP]
  split
  · split
    · exact Or.inl rfl
    · exact Or.inl rfl
  · split
    · exact Or.inl rfl
    · split
      · exact Or.inl rfl
      · exact Or.inr (by rw [close_db_eq])

/-- The database `handleCheckOTPStatus` leaves behind: unchanged, or with
the key deleted (the DELETE-method variant on a closed record). -/
theorem status_db_cases (c : Conf) (pub : Bool) (db : DB) (ns id : String) (md : Bool) :
    (handleCheckOTPStatus c pub db ns id md).2 = db ∨
    (handleCheckOTPStatus c pub db ns id md).2 = dbDel db (Redis.makeKey c ns id) := by
  simp only [handleCheckOTPStatus]
  split
  · exact Or.inl rfl
  · split
    · exact Or.inl (check_noincr_db c pub db ns id)
    · split
      · split
        · exact Or.inr (by rw [Redis.Delete, check_noincr_db])
        · exact Or.inl (check_noincr_db c pub db ns id)
      · exact Or.inl (check_noincr_db c pub db ns id)

/-- The database `handleVerifyOTP` leaves behind: unchanged (input
validation failures) or the one of its `verifyOTP` call. -/
theorem hverify_db_cases (c : Conf) (pub : Bool) (db : DB) (ns id otpVal : String)
    (skip : Bool) :
    (handleVerifyOTP c pub db ns id otpVal skip).2 = db ∨
    (handleVerifyOTP c pub db ns id otpVal skip).2 =
      (verifyOTP c pub db ns id otpVal (!skip)).2 := by
  simp only [handleVerifyOTP]
  split
  · exact Or.inl rfl
  · split
    · exact Or.inl rfl
    · split
      · split
        · exact Or.inr rfl
        · exact Or.inr rfl
      · exact Or.inr rfl

/-- Predicate: at key `k` the database either still holds a record flagged
`closed=true`, or no longer holds the key (deletion). -/
def closedStaysTrue (db2 : DB) (k : String) : Prop :=
  (db2 k).map (fun e2 => e2.fields.closed) = some (some true) ∨ db2 k = none

/-- C3 (amended): on a record flagged `closed=true`, every operation other
than a re-issue keeps the flag: Check (with or without increment, whatever
the publish outcome), Close, SetAddress, verifyOTP (every guess, with or
without delete-on-verify) and the status and verify handlers leave the key
either deleted or still flagged `closed=true`; but `Redis.Set` — reached by
`handleSetOTP` on a closed record that is not locked — always rewrites the
key with `closed=false`. -/
theorem C3_closed_terminal_except_set
    (c : Conf) (pub : Bool) (db : DB) (ns id : String)
    (s to2 ch ad ex pr : String) (ma a0 pt : Int)
    (hrec : db (Redis.makeKey c ns id) = some (mkEntry s to2 ch ad ex pr true ma a0 pt))
    (hs : s ≠ "") :
    (∀ counter, closedStaysTrue (Redis.Check c pub db ns id counter).2 (Redis.makeKey c ns id)) ∧
    closedStaysTrue (Redis.Close c pub db ns id).2 (Redis.makeKey c ns id) ∧
    (∀ a, closedStaysTrue (Redis.SetAddress c db ns id a).2 (Redis.makeKey c ns id)) ∧
    (∀ guess del, closedStaysTrue (verifyOTP c pub db ns id guess del).2 (Redis.makeKey c ns id)) ∧
    (∀ md, closedStaysTrue (handleCheckOTPStatus c pub db ns id md).2 (Redis.makeKey c ns id)) ∧
    (∀ otpVal skip,
      closedStaysTrue (handleVerifyOTP c pub db ns id otpVal skip).2 (Redis.makeKey c ns id)) ∧
    (∀ o, ((Redis.Set c db ns id o).2 (Redis.makeKey c ns id)).map
        (fun e2 => e2.fields.closed) = some (some false)) := by
  have hchk : ∀ counter,
      closedStaysTrue (Redis.Check c pub db ns id counter).2 (Redis.makeKey c ns id) := by
    intro counter
    cases counter
    · rw [check_noincr_db]
      exact Or.inl (by rw [hrec]; rfl)
    · rw [check_incr_db_eq c pub db ns id s to2 ch ad ex pr true ma a0 pt hrec hs]
      exact Or.inl (by rw [dbSet_self]; rfl)
  have hver : ∀ guess del,
      closedStaysTrue (verifyOTP c pub db ns id guess del).2 (Redis.makeKey c ns id) := by
    intro guess del
    rcases verify_db_cases c pub db ns id guess del with h | h
    · rw [h]; exact hchk true
    · rw [h]; exact Or.inl (hsetClosed_closed_at _ _)
  refine ⟨hchk, ?_, ?_, hver, ?_, ?_, ?_⟩
  · rw [close_db_eq]
    exact Or.inl (hsetClosed_closed_at _ _)
  · intro a
    exact Or.inl (by simp [Redis.SetAddress, hsetTo, hrec, mkEntry, dbSet])
  · intro md
    rcases status_db_cases c pub db ns id md with h | h
    · rw [h]; exact Or.inl (by rw [hrec]; rfl)
    · rw [h]; exact Or.inr (by simp [dbDel])
  · intro otpVal skip
    rcases hverify_db_cases c pub db ns id otpVal skip with h | h
    · rw [h]; exact Or.inl (by rw [hrec]; rfl)
    · rw [h]; exact hver otpVal (!skip)
  · intro o
    simp [Redis.Set, hincrby, pexpire, dbSet_self, hrec, mkEntry, dbSet]

def setRec0 : OTP :=
  { ns := "", id := "", toAddr := "", channelDesc := "", addressDesc := "",
    extra := "\x7b\x7d", provider := "smtp", otp := "654321", maxAttempts := 3,
    attempts := 0, closed := false, ttl := 60000 }

/-- Witness for the amended C3 at a concrete closed record: a wrong verify
leaves the flag true, while `Redis.Set` rewrites it to false. -/
theorem C3_closed_terminal_except_set_witness :
    (c3db (Redis.makeKey confNoPub "myapp" "uid123") =
        some (mkEntry "123456" "a@b" "" "" "\x7b\x7d" "smtp" true 3 1 30000) ∧
      "123456" ≠ "") ∧
    closedStaysTrue (verifyOTP confNoPub true c3db "myapp" "uid123" "000000" true).2
      (Redis.makeKey confNoPub "myapp" "uid123") ∧
    ((Redis.Set confNoPub c3db "myapp" "uid123" setRec0).2
        (Redis.makeKey confNoPub "myapp" "uid123")).map (fun e2 => e2.fields.closed) =
      some (some false) := by
  have h := C3_closed_terminal_except_set confNoPub true c3db "myapp" "uid123" "123456" "a@b"
    "" "" "\x7b\x7d" "smtp" 3 1 30000 (by decide) (by decide)
  exact ⟨⟨by decide, by decide⟩, h.2.2.2.1 "000000" true, h.2.2.2.2.2.2 setRec0⟩

def c4db : DB :=
  oneKeyDB "OTP:myapp:uid123" (mkEntry "999999" "" "" "" "\x7b\x7d" "smtp" false 3 2 30000)

/-- C4 counterexample: a `Set` over an existing record with `attempts=2`
returns `attempts=3`, not 1 — the stored counter is incremented, not reset,
so the returned count is not independent of what was stored. -/
theorem C4_counterexample :
    ((c4db "OTP:myapp:uid123").map fun e => e.fields.attempts) = some (some 2) ∧
    (Redis.Set confNoPub c4db "myapp" "uid123" setRec0).1.1.attempts = 3 ∧
    ((3 : Int) ≠ 1) := by
  exact ⟨by decide, by decide, by decide⟩

/-- C4 (amended): `Set` returns and stores `attempts = prior + 1`, where
`prior` is the attempts count already stored under the key (0 when the key
or field is absent) — so the result is 1 exactly on a fresh key; the new
record's secret is the one passed in and `closed` is reset to false. -/
theorem C4_set_increments_attempts (c : Conf) (db : DB) (ns id : String) (o : OTP) :
    (Redis.Set c db ns id o).1.1.attempts =
      (match db (Redis.makeKey c ns id) with
       | some e => e.fields.attempts.getD 0
       | none => 0) + 1 ∧
    ((Redis.Set c db ns id o).2 (Redis.makeKey c ns id)).map (fun e2 => e2.fields.attempts) =
      some (some ((match db (Redis.makeKey c ns id) with
       | some e => e.fields.attempts.getD 0
       | none => 0) + 1)) ∧
    ((Redis.Set c db ns id o).2 (Redis.makeKey c ns id)).map (fun e2 => e2.fields.otp) =
      some (some o.otp) ∧
    ((Redis.Set c db ns id o).2 (Redis.makeKey c ns id)).map (fun e2 => e2.fields.closed) =
      some (some false) := by
  cases h : db (Redis.makeKey c ns id) <;>
    simp [Redis.Set, hincrby, pexpire, hgetAttempts, dbSet, h]

def c5db : DB :=
  oneKeyDB "OTP:myapp:uid123" (mkEntry "123456" "a@b" "" "" "\x7b\x7d" "smtp" false 3 1 30000)

/-- C5 counterexample: with a publish key configured and the PUBLISH
round-trip failing, `Close` returns an error even though the `closed=true`
mutation itself succeeded — the claimed asymmetry between Check and Close
does not exist in the code. -/
theorem C5_counterexample :
    confPub.publishKey ≠ "" ∧
    (Redis.Close confPub false c5db "myapp" "uid123").1 = some GoErr.publishFailed ∧
    ((Redis.Close confPub false c5db "myapp" "uid123").2 "OTP:myapp:uid123").map
      (fun e2 => e2.fields.closed) = some (some true) := by
  exact ⟨by decide, by decide, by decide⟩

/-- C5 (amended): with a publish key configured, a publish failure
propagates as the error of both `Check(increment=true)` and `Close`; in both
calls the core mutation (the attempts increment, the closed flag) has
already been applied when the error is returned. -/
theorem C5_publish_failure_propagates_in_check_and_close
    (c : Conf) (db : DB) (ns id : String)
    (s to2 ch ad ex pr : String) (cl : Bool) (ma a0 pt : Int)
    (hrec : db (Redis.makeKey c ns id) = some (mkEntry s to2 ch ad ex pr cl ma a0 pt))
    (hs : s ≠ "")
    (hpk : c.publishKey ≠ "") :
    (Redis.Check c false db ns id true).1.2 = some GoErr.publishFailed ∧
    ((Redis.Check c false db ns id true).2 (Redis.makeKey c ns id)).map
      (fun e2 => e2.fields.attempts) = some (some (a0 + 1)) ∧
    (Redis.Close c false db ns id).1 = some GoErr.publishFailed ∧
    ((Redis.Close c false db ns id).2 (Redis.makeKey c ns id)).map
      (fun e2 => e2.fields.closed) = some (some true) := by
  have hg := get_of_rec c db ns id s to2 ch ad ex pr cl ma a0 pt hrec hs
  refine ⟨?_, ?_, ?_, ?_⟩
  · simp only [Redis.Check, hg]
    simp [hpk]
  · rw [check_incr_db_eq c false db ns id s to2 ch ad ex pr cl ma a0 pt hrec hs, dbSet_self]
    rfl
  · simp [Redis.Close, hpk]
  · rw [close_db_eq]
    exact hsetClosed_closed_at _ _

/-- Witness for the amended C5 at a concrete record and the configuration
with publish key "events". -/
theorem C5_publish_failure_propagates_witness :
    (c5db (Redis.makeKey confPub "myapp" "uid123") =
        some (mkEntry "123456" "a@b" "" "" "\x7b\x7d" "smtp" false 3 1 30000) ∧
      "123456" ≠ "" ∧ confPub.publishKey ≠ "") ∧
    (Redis.Check confPub false c5db "myapp" "uid123" true).1.2 = some GoErr.publishFailed ∧
    (Redis.Close confPub false c5db "myapp" "uid123").1 = some GoErr.publishFailed := by
  have h := C5_publish_failure_propagates_in_check_and_close confPub c5db "myapp" "uid123"
    "123456" "a@b" "" "" "\x7b\x7d" "smtp" false 3 1 30000 (by decide) (by decide) (by decide)
  exact ⟨⟨by decide, by decide, by decide⟩, h.1, h.2.2.1⟩

/-- C6 counterexample: on a missing record, `verifyOTP` does not surface the
sentinel NotExist error: the code replaces it with a fresh
`errors.New("error checking OTP.")`, a different error value, so the
handler's `err == store.ErrNotExist` comparison does not fire and the client
gets a plain 400 with the generic message. -/
theorem C6_counterexample :
    dbEmpty (Redis.makeKey confNoPub "myapp" "uid123") = none ∧
    (verifyOTP confNoPub true dbEmpty "myapp" "uid123" "123456" true).1.2 =
      some GoErr.checkFailedMsg ∧
    GoErr.checkFailedMsg ≠ GoErr.notExist ∧
    (handleVerifyOTP confNoPub true dbEmpty "myapp" "uid123" "123456" false).1.message =
      some "error checking OTP." ∧
    (handleVerifyOTP confNoPub true dbEmpty "myapp" "uid123" "123456" false).1.code = 400 := by
  exact ⟨by decide, by decide, by decide, by decide, by decide⟩

/-- Predicate: the key holds no readable record — absent, expired, or
without a secret — which is exactly what makes `Redis.get` report
`ErrNotExist`. -/
abbrev recordMissing (db : DB) (k : String) : Prop :=
  ((hgetall db k).otp.getD "") = ""

/-- Reading a missing record: `get` reports the sentinel. -/
theorem get_missing (c : Conf) (db : DB) (ns id : String)
    (hmiss : recordMissing db (Redis.makeKey c ns id)) :
    Redis.get c db ns id =
      (Redis.scanOTP ns id (hgetall db (Redis.makeKey c ns id)), some GoErr.notExist) := by
  have h2 : (Redis.scanOTP ns id (hgetall db (Redis.makeKey c ns id))).otp = "" := hmiss
  simp only [Redis.get]
  rw [if_pos h2]

/-- C6 (amended): a Verify on a missing or expired record fails with the
fresh generic error `errors.New("error checking OTP.")` rather than the
distinguished sentinel NotExist; the error value and its message are still
distinct from the wrong-guess IncorrectOTP, so a client can still tell the
two apart by message text, but not by the sentinel error kind; the database
is left unchanged. -/
theorem C6_missing_record_generic_error
    (c : Conf) (pub : Bool) (db : DB) (ns id guess : String) (del : Bool)
    (hmiss : recordMissing db (Redis.makeKey c ns id)) :
    (verifyOTP c pub db ns id guess del).1.2 = some GoErr.checkFailedMsg ∧
    (verifyOTP c pub db ns id guess del).2 = db ∧
    GoErr.checkFailedMsg ≠ GoErr.notExist ∧
    GoErr.checkFailedMsg ≠ GoErr.incorrectMsg ∧
    errMessage GoErr.checkFailedMsg ≠ errMessage GoErr.incorrectMsg := by
  have hg := get_missing c db ns id hmiss
  refine ⟨?_, ?_, by decide, by decide, by decide⟩
  · simp [verifyOTP, Redis.Check, hg]
  · simp [verifyOTP, Redis.Check, hg]

/-- Witness for the amended C6 on the empty database. -/
theorem C6_missing_record_generic_error_witness :
    recordMissing dbEmpty (Redis.makeKey confNoPub "myapp" "uid123") ∧
    (verifyOTP confNoPub true dbEmpty "myapp" "uid123" "000000" true).1.2 =
      some GoErr.checkFailedMsg := by
  exact ⟨by decide,
    (C6_missing_record_generic_error confNoPub true dbEmpty "myapp" "uid123" "000000" true
      (by decide)).1⟩

def c7db : DB :=
  oneKeyDB "OTP:myapp:uid123" (mkEntry "123456" "a@b" "" "" "\x7b\x7d" "smtp" false 3 5 30000)

def c7db2 : DB :=
  oneKeyDB "OTP:myapp:uid123" (mkEntry "123456" "a@b" "" "" "\x7b\x7d" "smtp" true 3 1 30000)

/-- C7 counterexample: the 429 decision tests `closed`, not `isLocked`.  A
locked, never-closed record (attempts=5 >= max=3) answers 400 although its
verify failure is TooManyAttempts, while a closed, non-locked record
(attempts 1->2 < max=3) answers 429 to a plain wrong guess. -/
theorem C7_counterexample :
    (isLocked (Redis.Check confNoPub true c7db "myapp" "uid123" true).1.1 = true ∧
      (handleVerifyOTP confNoPub true c7db "myapp" "uid123" "000000" false).1.code = 400 ∧
      (handleVerifyOTP confNoPub true c7db "myapp" "uid123" "000000" false).1.message =
        some (errMessage (GoErr.tooManyMsg 30000))) ∧
    (isLocked (Redis.Check confNoPub true c7db2 "myapp" "uid123" true).1.1 = false ∧
      (handleVerifyOTP confNoPub true c7db2 "myapp" "uid123" "000000" false).1.code = 429) := by
  exact ⟨⟨by decide, by decide, by decide⟩, by decide, by decide⟩

/-- Verification result on the success path (correct guess, below the
limit), for either value of delete-on-verify. -/
theorem verify_right_result_of_rec (c : Conf) (pub : Bool) (db : DB) (ns id : String)
    (s to2 ch ad ex pr : String) (cl : Bool) (ma a0 pt : Int)
    (hrec : db (Redis.makeKey c ns id) = some (mkEntry s to2 ch ad ex pr cl ma a0 pt))
    (hs : s ≠ "")
    (hpub : c.publishKey = "" ∨ pub = true)
    (hfree : a0 + 1 < ma) (del : Bool) :
    (verifyOTP c pub db ns id s del).1 =
      (mkOTP ns id s to2 ch ad ex pr true ma (a0 + 1) pt, none) := by
  have hc := check_incr_of_rec c pub db ns id s to2 ch ad ex pr cl ma a0 pt hrec hs hpub
  simp [verifyOTP, hc, isLocked, mkOTP, Int.not_le.mpr hfree]

/-- C7 (amended): the verification endpoint returns 200 on a successful
match; on a missing record it returns 400 with the generic check error; on
a verify failure (locked or wrong guess) the code is 429 exactly when the
stored record carries `closed=true`, else 400 — so a locked record gets 429
only if it was also closed, and a closed record gets 429 even for a plain
wrong guess below the limit. -/
theorem C7_verify_status_codes
    (c : Conf) (pub : Bool) (db : DB) (ns id : String)
    (s to2 ch ad ex pr : String) (cl : Bool) (ma a0 pt : Int)
    (hrec : db (Redis.makeKey c ns id) = some (mkEntry s to2 ch ad ex pr cl ma a0 pt))
    (hs : s ≠ "")
    (hpub : c.publishKey = "" ∨ pub = true)
    (hid : ¬ id.length < 6) (guess : String) (hg0 : guess ≠ "") (skip : Bool) :
    (∀ db2 : DB, db2 (Redis.makeKey c ns id) = none →
      (handleVerifyOTP c pub db2 ns id guess skip).1 =
        sendErrorResponse (errMessage GoErr.checkFailedMsg) 400
          (RespData.otpData (Redis.scanOTP ns id emptyHash))) ∧
    (a0 + 1 < ma → guess = s →
      (handleVerifyOTP c pub db ns id guess skip).1 =
        sendResponse (RespData.otpData (mkOTP ns id s to2 ch ad ex pr true ma (a0 + 1) pt))) ∧
    (a0 + 1 ≥ ma →
      (handleVerifyOTP c pub db ns id guess skip).1 =
        sendErrorResponse (errMessage (GoErr.tooManyMsg pt)) (if cl then 429 else 400)
          (RespData.otpData (mkOTP ns id s to2 ch ad ex pr cl ma (a0 + 1) pt))) ∧
    (a0 + 1 < ma → guess ≠ s →
      (handleVerifyOTP c pub db ns id guess skip).1 =
        sendErrorResponse (errMessage GoErr.incorrectMsg) (if cl then 429 else 400)
          (RespData.otpData (mkOTP ns id s to2 ch ad ex pr cl ma (a0 + 1) pt))) := by
  refine ⟨?_, ?_, ?_, ?_⟩
  · intro db2 hnone
    simp [handleVerifyOTP, hid, hg0, verifyOTP, Redis.Check, Redis.get, hgetall, hnone,
      Redis.scanOTP, emptyHash]
  · intro hfree hguess
    subst hguess
    have hv := verify_right_result_of_rec c pub db ns id guess to2 ch ad ex pr cl ma a0 pt
      hrec hs hpub hfree (!skip)
    simp [handleVerifyOTP, hid, hg0, hv]
  · intro hlock
    have hv := verify_locked_of_rec c pub db ns id s to2 ch ad ex pr cl ma a0 pt hrec hs hpub
      hlock guess (!skip)
    simp [handleVerifyOTP, hid, hg0, hv, mkOTP]
  · intro hfree hguess
    have hv := verify_wrong_of_rec c pub db ns id s to2 ch ad ex pr cl ma a0 pt hrec hs hpub
      hfree guess (Ne.symm hguess) (!skip)
    simp [handleVerifyOTP, hid, hg0, hv, mkOTP]

/-- Witness for the amended C7: the locked-but-not-closed record of the
counterexample answers 400, matching the `if closed` rule with
`closed=false`. -/
theorem C7_verify_status_codes_witness :
    (c7db (Redis.makeKey confNoPub "myapp" "uid123") =
        some (mkEntry "123456" "a@b" "" "" "\x7b\x7d" "smtp" false 3 5 30000) ∧
      "123456" ≠ "" ∧ (confNoPub.publishKey = "" ∨ (true = true)) ∧
      ¬ ("uid123".length < 6) ∧ "000000" ≠ "" ∧ (5 : Int) + 1 ≥ 3) ∧
    (handleVerifyOTP confNoPub true c7db "myapp" "uid123" "000000" false).1 =
      sendErrorResponse (errMessage (GoErr.tooManyMsg 30000)) (if false then 429 else 400)
        (RespData.otpData
          (mkOTP "myapp" "uid123" "123456" "a@b" "" "" "\x7b\x7d" "smtp" false 3 6 30000)) := by
  refine ⟨⟨by decide, by decide, Or.inl rfl, by decide, by decide, by decide⟩, ?_⟩
  exact (C7_verify_status_codes confNoPub true c7db "myapp" "uid123" "123456" "a@b" "" ""
    "\x7b\x7d" "smtp" false 3 5 30000 (by decide) (by decide) (Or.inl rfl) (by decide)
    "000000" (by decide) false).2.2.1 (by decide)

def c8otp : OTP :=
  { ns := "", id := "", toAddr := "a@b", channelDesc := "", addressDesc := "",
    extra := "\x7b\x7d", provider := "smtp", otp := "123456", maxAttempts := 3,
    attempts := 0, closed := false, ttl := 60000 }

def c8db0 : DB := (Redis.Set confNoPub dbEmpty "myapp" "uid1" c8otp).2

def c8v1 : (OTP × Option GoErr) × DB := verifyOTP confNoPub true c8db0 "myapp" "uid1" "000000" true

def c8v2 : (OTP × Option GoErr) × DB := verifyOTP confNoPub true c8v1.2 "myapp" "uid1" "000000" true

def c8v3 : (OTP × Option GoErr) × DB := verifyOTP confNoPub true c8v2.2 "myapp" "uid1" "000000" true

def c8v4w : (OTP × Option GoErr) × DB := verifyOTP confNoPub true c8v3.2 "myapp" "uid1" "000000" true

def c8v4r : (OTP × Option GoErr) × DB := verifyOTP confNoPub true c8v3.2 "myapp" "uid1" "123456" true

/-- C8 counterexample: in the claimed scenario (`otp="123456"`,
`max_attempts=3`, attempts=1 after Set), already the second wrong
`Verify("000000")` returns TooManyAttempts with attempts=3 — not a third
IncorrectOTP — because the lock (`attempts >= max_attempts`) is tested after
the increment. -/
theorem C8_counterexample :
    (Redis.Set confNoPub dbEmpty "myapp" "uid1" c8otp).1.1.attempts = 1 ∧
    c8v1.1.2 = some GoErr.incorrectMsg ∧ c8v1.1.1.attempts = 2 ∧
    c8v2.1.2 = some (GoErr.tooManyMsg 60000) ∧
    c8v2.1.2 ≠ some GoErr.incorrectMsg ∧
    c8v2.1.1.attempts = 3 := by
  exact ⟨by decide, by decide, by decide, by decide, by decide, by decide⟩

/-- C8 (amended): with `max_attempts=3` and attempts=1 after issuance, only
the first wrong `Verify("000000")` returns IncorrectOTP (attempts=2); the
second and third wrong calls return TooManyAttempts (attempts 3 and 4), and
the fourth call returns TooManyAttempts whether the guess is wrong or
correct (attempts=5). -/
theorem C8_scenario :
    c8v1.1.2 = some GoErr.incorrectMsg ∧ c8v1.1.1.attempts = 2 ∧
    c8v2.1.2 = some (GoErr.tooManyMsg 60000) ∧ c8v2.1.1.attempts = 3 ∧
    c8v3.1.2 = some (GoErr.tooManyMsg 60000) ∧ c8v3.1.1.attempts = 4 ∧
    c8v4w.1.2 = some (GoErr.tooManyMsg 60000) ∧ c8v4w.1.1.attempts = 5 ∧
    c8v4r.1.2 = some (GoErr.tooManyMsg 60000) ∧ c8v4r.1.1.attempts = 5 := by
  exact ⟨by decide, by decide, by decide, by decide, by decide, by decide, by decide,
    by decide, by decide⟩

/-- C9: a Verify with the correct OTP and delete-on-success (skip_delete
false) returns the record with `closed=true` and removes the record from the
store — after the call the key holds only the bare `closed` flag that the
trailing Close re-created, without the secret — so every subsequent Check,
and the status-check handler, reports NotExist. -/
theorem C9_verify_success_deletes
    (c : Conf) (pub : Bool) (db : DB) (ns id : String)
    (s to2 ch ad ex pr : String) (cl : Bool) (ma a0 pt : Int)
    (hrec : db (Redis.makeKey c ns id) = some (mkEntry s to2 ch ad ex pr cl ma a0 pt))
    (hs : s ≠ "")
    (hpub : c.publishKey = "" ∨ pub = true)
    (hfree : a0 + 1 < ma) (hid : ¬ id.length < 6) :
    (verifyOTP c pub db ns id s true).1.2 = none ∧
    (verifyOTP c pub db ns id s true).1.1.closed = true ∧
    (verifyOTP c pub db ns id s true).2 (Redis.makeKey c ns id) =
      some ⟨{ emptyHash with closed := some true }, none⟩ ∧
    (Redis.Check c pub (verifyOTP c pub db ns id s true).2 ns id false).1.2 =
      some GoErr.notExist ∧
    (handleCheckOTPStatus c pub (verifyOTP c pub db ns id s true).2 ns id false).1 =
      sendErrorResponse (errMessage GoErr.notExist) 400 RespData.null := by
  have hv := verify_right_delete_of_rec c pub db ns id s to2 ch ad ex pr cl ma a0 pt hrec hs
    hpub hfree
  rw [hv]
  refine ⟨rfl, rfl, ?_, ?_, ?_⟩
  · exact dbSet_self _ _ _
  · simp [Redis.Check, Redis.get, Redis.scanOTP, hgetall, dbSet_self, emptyHash, dbSet]
  · simp [handleCheckOTPStatus, hid, Redis.Check, Redis.get, Redis.scanOTP, hgetall,
      dbSet_self, emptyHash, dbSet, errMessage]

def c9db : DB :=
  oneKeyDB "OTP:myapp:uid123" (mkEntry "123456" "a@b" "" "" "\x7b\x7d" "smtp" false 3 1 30000)

/-- Witness for C9 at a concrete record with attempts=1, max_attempts=3. -/
theorem C9_verify_success_deletes_witness :
    (c9db (Redis.makeKey confNoPub "myapp" "uid123") =
        some (mkEntry "123456" "a@b" "" "" "\x7b\x7d" "smtp" false 3 1 30000) ∧
      "123456" ≠ "" ∧ (confNoPub.publishKey = "" ∨ (true = true)) ∧
      (1 : Int) + 1 < 3 ∧ ¬ ("uid123".length < 6)) ∧
    (verifyOTP confNoPub true c9db "myapp" "uid123" "123456" true).1.1.closed = true ∧
    (Redis.Check confNoPub true (verifyOTP confNoPub true c9db "myapp" "uid123" "123456" true).2
      "myapp" "uid123" false).1.2 = some GoErr.notExist := by
  have h := C9_verify_success_deletes confNoPub true c9db "myapp" "uid123" "123456" "a@b" ""
    "" "\x7b\x7d" "smtp" false 3 1 30000 (by decide) (by decide) (Or.inl rfl) (by decide)
    (by decide)
  exact ⟨⟨by decide, by decide, Or.inl rfl, by decide, by decide⟩, h.2.1, h.2.2.2.1⟩

/-- C10: the minimum-id-length rule (>= 6 chars) is enforced only by the
verification and status-check handlers — both reject any shorter id with an
invalid-input 400 before touching the store — while `handleSetOTP` accepts a
caller-supplied id of any non-zero length and creates the record, so a
record issued under a short id can never be verified or status-polled
through those endpoints. -/
theorem C10_id_length_rules (c : Conf) (pub : Bool) (ns : String) :
    (∀ (db : DB) (id otpVal : String) (skip : Bool), id.length < 6 →
      handleVerifyOTP c pub db ns id otpVal skip =
        (sendErrorResponse "ID should be min 6 chars" 400 RespData.null, db)) ∧
    (∀ (db : DB) (id : String) (md : Bool), id.length < 6 →
      handleCheckOTPStatus c pub db ns id md =
        (sendErrorResponse "ID should be min 6 chars." 400 RespData.null, db)) ∧
    (∀ (app : App) (db : DB) (q : SetReq) (p : Provider),
      lookupProvider app.providers q.provider = some p →
      q.id ≠ "" → q.toAddr = "" → q.rawTTL = "" → q.rawMaxAttempts = "" → q.extra = "" →
      q.otpVal ≠ "" → db (Redis.makeKey app.conf ns q.id) = none →
      (handleSetOTP app db ns q).1.code = 200 ∧
      (((handleSetOTP app db ns q).2 (Redis.makeKey app.conf ns q.id)).map
        fun e2 => e2.fields.otp) = some (some q.otpVal) ∧
      (((handleSetOTP app db ns q).2 (Redis.makeKey app.conf ns q.id)).map
        fun e2 => e2.fields.attempts) = some (some 1)) := by
  refine ⟨?_, ?_, ?_⟩
  · intro db id otpVal skip h
    simp [handleVerifyOTP, h]
  · intro db id md h
    simp [handleCheckOTPStatus, h]
  · intro app db q p hp hid hto httl hmax hext hotp hnone
    simp [handleSetOTP, hp, hto, httl, hmax, hext, hid, hotp, parseTTLArg,
      parseMaxAttemptsArg, Redis.Check, Redis.get, Redis.scanOTP, hgetall, hnone, emptyHash,
      Redis.Set, hincrby, pexpire, hgetAttempts, dbSet, isLocked, sendResponse]

def c10req : SetReq :=
  { id := "abc", provider := "smtp", channelDesc := "", addressDesc := "",
    rawTTL := "", rawMaxAttempts := "", extra := "", toAddr := "", otpVal := "654321" }

/-- Witness for C10 with the 3-character id "abc": issuance succeeds and
stores the record, while verification and status checks on the same id are
rejected as invalid input. -/
theorem C10_id_length_rules_witness :
    ("abc".length < 6 ∧ lookupProvider wApp.providers c10req.provider = some wProv ∧
      c10req.id ≠ "" ∧ dbEmpty (Redis.makeKey wApp.conf "myapp" c10req.id) = none) ∧
    handleVerifyOTP confNoPub true dbEmpty "myapp" "abc" "654321" false =
      (sendErrorResponse "ID should be min 6 chars" 400 RespData.null, dbEmpty) ∧
    handleCheckOTPStatus confNoPub true dbEmpty "myapp" "abc" false =
      (sendErrorResponse "ID should be min 6 chars." 400 RespData.null, dbEmpty) ∧
    (handleSetOTP wApp dbEmpty "myapp" c10req).1.code = 200 ∧
    (((handleSetOTP wApp dbEmpty "myapp" c10req).2
        (Redis.makeKey wApp.conf "myapp" c10req.id)).map
      fun e2 => e2.fields.otp) = some (some c10req.otpVal) := by
  have h := C10_id_length_rules confNoPub true "myapp"
  have h3 := (C10_id_length_rules confNoPub true "myapp").2.2 wApp dbEmpty c10req wProv rfl
    (by decide) rfl rfl rfl rfl (by decide) (by decide)
  exact ⟨⟨by decide, rfl, by decide, by decide⟩,
    h.1 dbEmpty "abc" "654321" false (by decide),
    h.2.1 dbEmpty "abc" false (by decide), h3.1, h3.2.1⟩
